import Mathlib

/-!
Verification of the EchoMind repository: a mental-wellness query pipeline
(document chunking and indexing, retrieval, answer synthesis, urgency
classification, resource recommendation) with a React chat frontend.

The frontend definitions below are shallow embeddings of
src/frontend/src/components/Chat.jsx, src/frontend/src/components/EmergencyBanner.jsx
and src/frontend/src/services/api.js. The backend services
(app/services/urgency_classifier.py, rag_service.py, resource_recommender.py)
are referenced by the repository documentation but their code is not in the
repository snapshot, so those components are modelled from the specification,
as marked on each definition.
-/

/-! ## Generic string helpers (JavaScript semantics) -/

/-- Whitespace test matching the characters trimmed by the JavaScript
String.prototype.trim on the inputs this frontend handles. -/
def isWsChar (c : Char) : Bool :=
  c = ' ' || c = '\t' || c = '\n' || c = '\r'

/-- True when the string is empty after trimming, i.e. when the JavaScript
test that rejects the input text in Chat.jsx line 38 fires. -/
def isEmptyAfterTrim (s : String) : Bool :=
  s.data.all isWsChar

/-- JavaScript String.prototype.trim: drop leading and trailing whitespace. -/
def trimStr (s : String) : String :=
  ⟨((s.data.dropWhile isWsChar).reverse.dropWhile isWsChar).reverse⟩

/-- Boolean prefix test on character lists. -/
def isPrefixOfB : List Char → List Char → Bool
  | [], _ => true
  | _ :: _, [] => false
  | a :: as, b :: bs => a = b && isPrefixOfB as bs

/-- Boolean substring test: does the needle occur contiguously in the haystack. -/
def containsSub (needle : List Char) : List Char → Bool
  | [] => isPrefixOfB needle []
  | c :: rest => isPrefixOfB needle (c :: rest) || containsSub needle rest

/-- Lower-case the characters of a string, as the backend classifier
normalises query text before keyword matching. -/
def toLowerChars (s : String) : List Char :=
  s.data.map Char.toLower

/-- JavaScript idiom x || d on an optional string: null, undefined and the
empty string all fall back to the default. -/
def jsOrStr (x : Option String) (d : String) : String :=
  match x with
  | none => d
  | some s => if s = "" then d else s

/-! ## Frontend data model (Chat.jsx, EmergencyBanner.jsx) -/

/-- An emergency contact as consumed by EmergencyBanner.jsx (name and phone). -/
structure Contact where
  name : String
  phone : String
deriving DecidableEq

/-- The type tag of a chat message in Chat.jsx. -/
inductive MessageType where
  | system
  | user
  | assistant
  | error
deriving DecidableEq

/-- A chat message as built in Chat.jsx. Assistant messages carry the extra
response fields; resource entries are opaque payloads forwarded to
ResourceCard, modelled as strings. -/
structure Message where
  id : String
  mtype : MessageType
  content : String
  timestamp : Nat
  urgency : Option String := none
  confidence : Option String := none
  confidenceScore : Option Rat := none
  sources : List String := []
  keyPoints : List String := []
  relatedTopics : List String := []
  resources : List String := []
  nextSteps : List String := []
deriving DecidableEq

/-- The synthesized_answer payload of a query response, as read by Chat.jsx
with optional chaining (absent fields are none). -/
structure SynthAnswerPayload where
  answer : String
  confidence : Option String
  confidence_score : Option Rat
  sources : Option (List String)
  key_points : Option (List String)
  related_topics : Option (List String)
deriving DecidableEq

/-- The response object of POST /api/v1/query as consumed by Chat.jsx. -/
structure QueryResponse where
  response_id : String
  urgency_level : String
  emergency_contacts : Option (List Contact)
  synthesized_answer : Option SynthAnswerPayload
  recommended_resources : Option (List String)
  next_steps : Option (List String)
  timestamp : Nat
deriving DecidableEq

/-- The component state of Chat.jsx that handleSendMessage reads and writes. -/
structure ChatState where
  messages : List Message
  inputText : String
  isLoading : Bool
  showEmergencyBanner : Bool
  emergencyContacts : List Contact
deriving DecidableEq

/-- Outcome of the awaited sendQuery call: the promise resolves with a
response or rejects with an error. -/
inductive ApiOutcome where
  | success (r : QueryResponse)
  | failure
deriving DecidableEq

/-- Fallback text used when the response carries no usable answer
(Chat.jsx line 70). -/
def troubleText : String :=
  "I\x27m having trouble processing that right now."

/-- Text of the error message appended when the API call rejects
(Chat.jsx lines 87 to 92). -/
def errText : String :=
  "I apologize, but I encountered an issue. Please try again or contact support if the problem persists."

/-- Shallow embedding of handleSendMessage in Chat.jsx (lines 35 to 99).
The nondeterministic environment is made explicit: now stands for Date.now
and outcome for the result of the awaited sendQuery call. Returns the new
component state and whether a request was sent. The guard on line 38
returns synchronously, before any state change or request, when the trimmed
input is empty or a request is already in flight. -/
def handleSendMessage (s : ChatState) (now : Nat) (outcome : ApiOutcome) :
    ChatState × Bool :=
  if isEmptyAfterTrim s.inputText || s.isLoading then (s, false)
  else
    let userMessage : Message :=
      { id := "user_" ++ toString now
        mtype := MessageType.user
        content := trimStr s.inputText
        timestamp := now }
    let s1 : ChatState :=
      { s with
        messages := s.messages ++ [userMessage]
        inputText := ""
        isLoading := true }
    match outcome with
    | ApiOutcome.success r =>
      let s2 : ChatState :=
        if r.urgency_level = "critical" || r.urgency_level = "high" then
          { s1 with
            showEmergencyBanner := true
            emergencyContacts := r.emergency_contacts.getD [] }
        else s1
      let aiMessage : Message :=
        { id := r.response_id
          mtype := MessageType.assistant
          content := jsOrStr (r.synthesized_answer.map (fun a => a.answer)) troubleText
          urgency := some r.urgency_level
          confidence := (r.synthesized_answer.bind (fun a => a.confidence))
          confidenceScore := (r.synthesized_answer.bind (fun a => a.confidence_score))
          sources := ((r.synthesized_answer.bind (fun a => a.sources)).getD [])
          keyPoints := ((r.synthesized_answer.bind (fun a => a.key_points)).getD [])
          relatedTopics := ((r.synthesized_answer.bind (fun a => a.related_topics)).getD [])
          resources := (r.recommended_resources.getD [])
          nextSteps := (r.next_steps.getD [])
          timestamp := r.timestamp }
      ({ s2 with
          messages := s2.messages ++ [aiMessage]
          isLoading := false }, true)
    | ApiOutcome.failure =>
      let errorMessage : Message :=
        { id := "error_" ++ toString now
          mtype := MessageType.error
          content := errText
          timestamp := now }
      ({ s1 with
          messages := s1.messages ++ [errorMessage]
          isLoading := false }, true)

/-- The emergency banner as rendered by Chat.jsx lines 138 to 143: shown only
when showEmergencyBanner holds, and then populated with the
emergencyContacts state passed to EmergencyBanner. -/
def renderedBanner (s : ChatState) : Option (List Contact) :=
  if s.showEmergencyBanner then some s.emergencyContacts else none

/-! ## Confidence badge (Chat.jsx lines 101 to 117) -/

/-- The relevant part of an axios request configuration. A timeout of 0 is
the axios default and means the request never times out. -/
structure AxiosConfig where
  baseURL : String
  timeout : Nat
deriving DecidableEq

/-- Base URL of the backend (api.js line 7, default branch). -/
def API_BASE_URL : String := "http://localhost:8000"

/-- API version path (api.js line 8). -/
def API_VERSION : String := "/api/v1"

/-- The shared axios instance created in api.js lines 11 to 17, with a
30000 millisecond timeout. -/
def apiClient : AxiosConfig :=
  { baseURL := API_BASE_URL ++ API_VERSION, timeout := 30000 }

/-- The built-in axios defaults used by a bare axios.get call: no timeout. -/
def axiosDefaultConfig : AxiosConfig :=
  { baseURL := "", timeout := 0 }

/-- The four requests issued by services/api.js. -/
inductive ApiCall where
  | sendQuery
  | checkHealth
  | getStats
  | ingestDocument
deriving DecidableEq

/-- The axios configuration each exported request function runs under:
sendQuery, getStats and ingestDocument go through apiClient, while
checkHealth (api.js line 73) calls axios.get directly with no configuration
and therefore runs under the axios defaults. -/
def configUsed : ApiCall → AxiosConfig
  | ApiCall.sendQuery => apiClient
  | ApiCall.checkHealth => axiosDefaultConfig
  | ApiCall.getStats => apiClient
  | ApiCall.ingestDocument => apiClient

/-- A call has a bounded timeout when its configured timeout is nonzero
(axios treats 0 as unlimited). -/
def hasBoundedTimeout (c : ApiCall) : Bool :=
  (configUsed c).timeout != 0

/-! ## UrgencyClassifier -/

/-- The four severity tiers of an UrgencyAssessment. -/
inductive UrgencyLevel where
  | low
  | medium
  | high
  | critical
deriving DecidableEq

/-- Modelled from the spec: app/services/urgency_classifier.py is not in the
repository snapshot. A pattern rule of the classifier table (spec 4.4 and
design note): a lower-case trigger phrase, the negation guards whose
presence near the trigger suppresses the match, and a diagnostic weight
feeding risk_score. -/
structure PatternRule where
  phrase : String
  negationGuards : List String
  weight : Nat
deriving DecidableEq

/-- A rule matches when its trigger phrase occurs in the lower-cased text
(negation ignored, as used by the diagnostic risk_score). -/
def ruleMatches (t : List Char) (r : PatternRule) : Bool :=
  containsSub r.phrase.data t

/-- A rule fires when it matches and none of its negation guards occurs in
the text: a negated context near the trigger suppresses the match. -/
def ruleFires (t : List Char) (r : PatternRule) : Bool :=
  ruleMatches t r && !(r.negationGuards.any (fun g => containsSub g.data t))

/-- Modelled from the spec: critical-tier rules (spec 4.4 and the repository
documentation examples of critical queries). -/
def criticalRules : List PatternRule :=
  [ ⟨"suicid", ["not suicid", "never suicid", "no suicid"], 10⟩,
    ⟨"kill myself", ["not kill myself", "never kill myself"], 10⟩,
    ⟨"end it all", ["not end it all"], 10⟩,
    ⟨"end my life", ["not end my life"], 10⟩ ]

/-- Modelled from the spec: high-tier rules (documentation example of a
high-urgency query). -/
def highRules : List PatternRule :=
  [ ⟨"panic attack", [], 6⟩,
    ⟨"hopeless", ["not hopeless"], 6⟩,
    ⟨"self harm", ["not self harm"], 6⟩ ]

/-- Modelled from the spec: medium-tier rules (documentation example of a
medium-urgency query). -/
def mediumRules : List PatternRule :=
  [ ⟨"anxious", ["not anxious"], 3⟩,
    ⟨"stressed", ["not stressed"], 3⟩,
    ⟨"depressed", ["not depressed"], 3⟩ ]

/-- Modelled from the spec: low-tier rules (documentation example of a
low-urgency query). -/
def lowRules : List PatternRule :=
  [ ⟨"stress management", [], 1⟩,
    ⟨"wellness", [], 1⟩,
    ⟨"sleep", [], 1⟩ ]

/-- Modelled from the spec: the ordered severity-tier table of the
classifier, most severe first (critical, high, medium, low). -/
def tierTable : List (UrgencyLevel × List PatternRule) :=
  [ (UrgencyLevel.critical, criticalRules),
    (UrgencyLevel.high, highRules),
    (UrgencyLevel.medium, mediumRules),
    (UrgencyLevel.low, lowRules) ]

/-- Modelled from the spec: evaluation proceeds from most to least severe
tier and the first tier with any matching, non-negated rule determines the
level; when no tier matches, the classifier defaults to low
(ClassificationAmbiguous, spec 7). -/
def classifyLevel (text : String) : UrgencyLevel :=
  let t := toLowerChars text
  match tierTable.find? (fun p => p.2.any (ruleFires t)) with
  | some p => p.1
  | none => UrgencyLevel.low

/-- Modelled from the spec: the diagnostic risk_score, a weighted count of
all matched signals across every tier, ignoring negation suppression. -/
def riskScore (text : String) : Nat :=
  let t := toLowerChars text
  tierTable.foldl
    (fun acc p => acc + (p.2.filter (ruleMatches t)).foldl (fun a r => a + r.weight) 0) 0

/-- Modelled from the spec: matched_signals records which rules fired. -/
def matchedSignals (text : String) : List String :=
  let t := toLowerChars text
  tierTable.foldl (fun acc p => acc ++ (p.2.filter (ruleFires t)).map (fun r => r.phrase)) []

/-- An UrgencyAssessment (spec 3): level, diagnostic risk_score and the
fired signals. -/
structure UrgencyAssessment where
  level : UrgencyLevel
  risk_score : Nat
  matched_signals : List String
deriving DecidableEq

/-- Modelled from the spec: the classifier, a pure deterministic function of
query text. -/
def classify (text : String) : UrgencyAssessment :=
  { level := classifyLevel text
    risk_score := riskScore text
    matched_signals := matchedSignals text }

/-! ## ResourceRecommender -/

/-- A catalog resource (spec 3): id, name, type tag, trust score and the
match score computed for the current request. -/
structure CatalogResource where
  id : Nat
  name : String
  rtype : String
  trust_score : Rat
  match_score : Rat
deriving DecidableEq

/-- A resource counts as emergency-contact-type when its type tag is an
emergency contact or crisis hotline. -/
def isEmergencyType (r : CatalogResource) : Bool :=
  r.rtype = "emergency_contact" || r.rtype = "hotline"

/-- Urgency levels that mandate emergency contacts: high and critical. -/
def urgentLevel (l : UrgencyLevel) : Bool :=
  l = UrgencyLevel.high || l = UrgencyLevel.critical

/-- Modelled from the spec: the precomputed emergency-contact resource list
(orchestrator step 3), built from the configured crisis hotlines of the
repository documentation (988 and 9152987821). -/
def emergencyContactResources : List CatalogResource :=
  [ ⟨0, "988 Suicide and Crisis Lifeline", "emergency_contact", 1, 1⟩,
    ⟨1, "iCall India Helpline 9152987821", "emergency_contact", 1, 1⟩ ]

/-- Ordering of recommended resources: descending match_score, ties broken
by trust_score then resource id (spec 4.5). -/
def resBefore (a b : CatalogResource) : Bool :=
  b.match_score < a.match_score
  || (a.match_score = b.match_score && b.trust_score < a.trust_score)
  || (a.match_score = b.match_score && a.trust_score = b.trust_score && a.id < b.id)

/-- Insert into a list sorted by the given strict-priority test. -/
def insertSorted (le : CatalogResource → CatalogResource → Bool)
    (a : CatalogResource) : List CatalogResource → List CatalogResource
  | [] => [a]
  | b :: bs => if le a b then a :: b :: bs else b :: insertSorted le a bs

/-- Insertion sort by the given priority test. -/
def sortResources (le : CatalogResource → CatalogResource → Bool) :
    List CatalogResource → List CatalogResource
  | [] => []
  | a :: as => insertSorted le a (sortResources le as)

/-- Modelled from the spec: app/services resource recommendation (spec 4.5).
The combined relevance, location and cost filters are abstracted as the
keep predicate; the surviving catalog entries are ranked by descending
match_score with deterministic tie-breaks, and for high or critical urgency
the precomputed emergency-contact resources are injected whenever the
ranked list has no emergency-contact-type entry, regardless of any
match_score. -/
def recommendResources (a : UrgencyAssessment) (keep : CatalogResource → Bool)
    (catalog : List CatalogResource) : List CatalogResource :=
  let ranked := sortResources resBefore (catalog.filter keep)
  if urgentLevel a.level && !(ranked.any isEmergencyType) then
    emergencyContactResources ++ ranked
  else
    ranked

/-! ## Synthesizer -/

/-- A retrieval result consumed by the synthesizer (spec 3): chunk text, the
source it cites, raw similarity, source trust and the combined score. -/
structure RetrievalResult where
  chunk_text : String
  source : String
  similarity : Rat
  trust_score : Rat
  combined_score : Rat
deriving DecidableEq

/-- Discrete confidence level of a synthesized answer. -/
inductive Confidence where
  | low
  | medium
  | high
deriving DecidableEq

/-- A synthesized answer (spec 3): text, confidence level and score, cited
sources and ordered key points. -/
structure SynthesizedAnswer where
  text : String
  confidence : Confidence
  confidence_score : Rat
  sources : List String
  key_points : List String
deriving DecidableEq

/-- Modelled from the spec: the minimum similarity floor a retrieval result
must clear to be used by the synthesizer. -/
def SIMILARITY_FLOOR : Rat := 3 / 10

/-- Modelled from the spec: the fixed fallback answer returned when no
result clears the similarity floor: it signals insufficient information,
cites no sources and has confidence low. -/
def fallbackAnswer : SynthesizedAnswer :=
  { text := "I do not have enough reliable information in my knowledge base to answer that confidently. Please consider reaching out to a mental health professional."
    confidence := Confidence.low
    confidence_score := 0
    sources := []
    key_points := [] }

/-- Deduplicate while keeping first occurrences, tracking what was seen. -/
def dedupAux (seen : List String) : List String → List String
  | [] => []
  | x :: xs => if seen.contains x then dedupAux seen xs else x :: dedupAux (x :: seen) xs

/-- Deduplicate a list of source names, keeping first occurrences, so each
source document is cited once (spec 4.3 grouping by source). -/
def dedupSources (l : List String) : List String :=
  dedupAux [] l

/-- Clamp a rational to the unit interval. -/
def clampUnit (x : Rat) : Rat :=
  if x < 0 then 0 else if 1 < x then 1 else x

/-- Modelled from the spec: confidence_score of the used results, from their
mean combined score, an agreement term penalizing high variance of the
combined scores, and a coverage term raising confidence with the number of
independent sources with diminishing returns. -/
def confidenceScoreOf (used : List RetrievalResult) : Rat :=
  let scores := used.map (fun r => r.combined_score)
  let n : Rat := (scores.length : Rat)
  let mean := scores.sum / n
  let variance := (scores.map (fun x => (x - mean) * (x - mean))).sum / n
  let coverage := 1 - 1 / (n + 1)
  clampUnit (mean - variance + coverage / 5)

/-- Fixed thresholds mapping confidence_score to the discrete level:
at least 0.75 is high, at least 0.5 is medium, below that low (spec 4.3). -/
def confidenceLevelOf (c : Rat) : Confidence :=
  if 3 / 4 ≤ c then Confidence.high
  else if 1 / 2 ≤ c then Confidence.medium
  else Confidence.low

/-- Ordering of used results for key points: descending combined_score. -/
def resultBefore (a b : RetrievalResult) : Bool :=
  b.combined_score < a.combined_score

/-- Insert into a list of retrieval results sorted by the priority test. -/
def insertResult (a : RetrievalResult) : List RetrievalResult → List RetrievalResult
  | [] => [a]
  | b :: bs => if resultBefore a b then a :: b :: bs else b :: insertResult a bs

/-- Insertion sort of retrieval results by descending combined_score. -/
def sortResults : List RetrievalResult → List RetrievalResult
  | [] => []
  | a :: as => insertResult a (sortResults as)

/-- Modelled from the spec: the synthesizer (spec 4.3, app/services
rag_service.py). Results clearing the similarity floor are used; if none
clears it the fixed fallback answer is returned. Otherwise the answer cites
each used source once, orders key points by descending combined score and
derives the confidence level from the confidence score via the fixed
thresholds. -/
def synthesize (results : List RetrievalResult) : SynthesizedAnswer :=
  let used := results.filter (fun r => SIMILARITY_FLOOR ≤ r.similarity)
  if used.isEmpty then fallbackAnswer
  else
    let cs := confidenceScoreOf used
    { text := "Based on trusted resources: " ++
        String.intercalate " " (used.map (fun r => r.chunk_text))
      confidence := confidenceLevelOf cs
      confidence_score := cs
      sources := dedupSources (used.map (fun r => r.source))
      key_points := (sortResults used).map (fun r => r.chunk_text) }

/-! ## Chunker and indexer -/

/-- Claim C4: for every input whose query text is empty or whitespace-only,
the frontend submit handler returns synchronously before any pipeline
stage: no request is sent, no message is added and no chat state changes. -/
theorem empty_input_rejected_synchronously (s : ChatState) (now : Nat)
    (outcome : ApiOutcome) (h : isEmptyAfterTrim s.inputText = true) :
    handleSendMessage s now outcome = (s, false) := by
  unfold handleSendMessage
  simp [h]

/-- Concrete instance of the empty-input rejection: a whitespace-only input
with the handler in its initial state is rejected with the state unchanged
and no request sent. -/
theorem empty_input_rejected_synchronously_witness :
    handleSendMessage
      { messages := []
        inputText := "   "
        isLoading := false
        showEmergencyBanner := false
        emergencyContacts := [] } 0 ApiOutcome.failure =
      ({ messages := []
         inputText := "   "
         isLoading := false
         showEmergencyBanner := false
         emergencyContacts := [] }, false) :=
  empty_input_rejected_synchronously _ 0 ApiOutcome.failure (by decide)

/-- Claim C7 counterexample: the health-check request is issued with the
bare axios defaults, whose timeout is 0, i.e. unbounded; so not every
request of the frontend API service carries a bounded timeout. -/
theorem api_timeout_counterexample :
    hasBoundedTimeout ApiCall.checkHealth = false := rfl

/-- Claim C7, amended: every request made through the shared API client
(sendQuery, getStats, ingestDocument) is configured with the finite
30000 millisecond timeout, hence bounded; only checkHealth, which bypasses
the shared client, runs without a timeout. -/
theorem apiClient_requests_bounded_timeout (c : ApiCall)
    (h : c ≠ ApiCall.checkHealth) :
    (configUsed c).timeout = 30000 ∧ hasBoundedTimeout c = true := by
  cases c with
  | sendQuery => exact ⟨rfl, rfl⟩
  | checkHealth => exact absurd rfl h
  | getStats => exact ⟨rfl, rfl⟩
  | ingestDocument => exact ⟨rfl, rfl⟩

/-- Concrete instance of the amended timeout claim: the query request runs
under the 30000 millisecond timeout of the shared client. -/
theorem apiClient_requests_bounded_timeout_witness :
    (configUsed ApiCall.sendQuery).timeout = 30000 :=
  (apiClient_requests_bounded_timeout ApiCall.sendQuery (by decide)).1

/-- Number of error-type messages in a chat transcript. -/
def countErrorMessages (l : List Message) : Nat :=
  l.countP (fun m => m.mtype == MessageType.error)

/-- Claim C6: for every response received with urgency_level critical or
high, the emergency banner is displayed and populated with the response
emergency_contacts (an empty list when the field is absent); a response
with urgency_level low or medium leaves the banner state unchanged. -/
theorem urgent_response_shows_banner (s : ChatState) (now : Nat)
    (r : QueryResponse) (hne : isEmptyAfterTrim s.inputText = false)
    (hl : s.isLoading = false) :
    ((r.urgency_level = "critical" ∨ r.urgency_level = "high") →
      renderedBanner (handleSendMessage s now (ApiOutcome.success r)).1 =
        some (r.emergency_contacts.getD [])) ∧
    ((r.urgency_level = "low" ∨ r.urgency_level = "medium") →
      (handleSendMessage s now (ApiOutcome.success r)).1.showEmergencyBanner =
          s.showEmergencyBanner ∧
      (handleSendMessage s now (ApiOutcome.success r)).1.emergencyContacts =
          s.emergencyContacts) := by
  constructor
  · intro hu
    rcases hu with h | h <;>
      simp [handleSendMessage, hne, hl, h, renderedBanner]
  · intro hu
    rcases hu with h | h <;>
      simp [handleSendMessage, hne, hl, h, renderedBanner]

/-- Concrete instance of the banner claim: a critical response with two
emergency contacts makes the rendered banner show exactly those contacts. -/
theorem urgent_response_shows_banner_witness :
    renderedBanner
      (handleSendMessage
        { messages := []
          inputText := "help me"
          isLoading := false
          showEmergencyBanner := false
          emergencyContacts := [] } 0
        (ApiOutcome.success
          { response_id := "r1"
            urgency_level := "critical"
            emergency_contacts := some [⟨"988 Lifeline", "988"⟩]
            synthesized_answer := none
            recommended_resources := none
            next_steps := none
            timestamp := 0 })).1 =
      some [⟨"988 Lifeline", "988"⟩] :=
  (urgent_response_shows_banner _ 0 _ (by decide) rfl).1 (Or.inl rfl)

/-- Claim C9: when the API call rejects, the handler appends the user
message and exactly one error-type message, leaves every previously
displayed message and the emergency banner state unchanged, and resets the
loading flag to false; a failure never aborts or clears the conversation. -/
theorem api_failure_appends_error (s : ChatState) (now : Nat)
    (hne : isEmptyAfterTrim s.inputText = false) (hl : s.isLoading = false) :
    (handleSendMessage s now ApiOutcome.failure).1 =
      { s with
        messages := s.messages ++
          [{ id := "user_" ++ toString now
             mtype := MessageType.user
             content := trimStr s.inputText
             timestamp := now },
           { id := "error_" ++ toString now
             mtype := MessageType.error
             content := errText
             timestamp := now }]
        inputText := ""
        isLoading := false } ∧
    countErrorMessages (handleSendMessage s now ApiOutcome.failure).1.messages =
      countErrorMessages s.messages + 1 := by
  have h1 : (handleSendMessage s now ApiOutcome.failure).1 =
      { s with
        messages := s.messages ++
          [{ id := "user_" ++ toString now
             mtype := MessageType.user
             content := trimStr s.inputText
             timestamp := now },
           { id := "error_" ++ toString now
             mtype := MessageType.error
             content := errText
             timestamp := now }]
        inputText := ""
        isLoading := false } := by
    simp [handleSendMessage, hne, hl]
  refine ⟨h1, ?_⟩
  rw [h1]
  simp [countErrorMessages, List.countP_append, List.countP_cons]

/-- Concrete instance of the failure-path claim: with one prior message, a
rejected call leaves the error-message count at the prior count plus one. -/
theorem api_failure_appends_error_witness :
    countErrorMessages
      (handleSendMessage
        { messages := [{ id := "welcome"
                         mtype := MessageType.system
                         content := "Hello"
                         timestamp := 0 }]
          inputText := "hello"
          isLoading := false
          showEmergencyBanner := false
          emergencyContacts := [] } 1 ApiOutcome.failure).1.messages =
      countErrorMessages
        [{ id := "welcome"
           mtype := MessageType.system
           content := "Hello"
           timestamp := 0 }] + 1 :=
  (api_failure_appends_error _ 1 (by decide) rfl).2

/-- Claim C2: the classifier evaluates tiers from most to least severe; when
any critical-tier rule matches non-negated the level is critical, no matter
what lower tiers match, and the diagnostic risk_score is computed
separately and never overrides this tier precedence. -/
theorem urgency_tier_precedence (text : String)
    (h : criticalRules.any (ruleFires (toLowerChars text)) = true) :
    (classify text).level = UrgencyLevel.critical ∧
    (classify text).risk_score = riskScore text := by
  refine ⟨?_, rfl⟩
  show classifyLevel text = UrgencyLevel.critical
  unfold classifyLevel
  simp only [tierTable, List.find?, h]

/-- Concrete instance of tier precedence: a text with a critical trigger and
a low-tier keyword classifies as critical. -/
theorem urgency_tier_precedence_witness :
    (classify "I want to kill myself and cannot sleep").level =
      UrgencyLevel.critical :=
  (urgency_tier_precedence _ (by decide)).1

/-- Claim C3: a negation guard occurring in the text suppresses the match of
its rule, and in particular the query about not being suicidal but stressed
about exams does not classify as critical. -/
theorem negation_guard_suppresses (t : List Char) (r : PatternRule)
    (h : r.negationGuards.any (fun g => containsSub g.data t) = true) :
    ruleFires t r = false ∧
    (classify "I am not suicidal, just stressed about exams").level ≠
      UrgencyLevel.critical := by
  constructor
  · unfold ruleFires
    simp [h]
  · decide

/-- Concrete instance of negation suppression: the suicid rule does not fire
on the lower-cased exam-stress query, because its guard occurs there. -/
theorem negation_guard_suppresses_witness :
    ruleFires (toLowerChars "I am not suicidal, just stressed about exams")
      ⟨"suicid", ["not suicid", "never suicid", "no suicid"], 10⟩ = false :=
  (negation_guard_suppresses _ _ (by decide)).1

/-- Claim C1: for every assessment with urgency high or critical, whatever
the catalog, its match scores and the relevance filter, the recommended
resource list contains at least one emergency-contact-type resource: it is
injected, not merely ranked. -/
theorem emergency_resource_guarantee (a : UrgencyAssessment)
    (keep : CatalogResource → Bool) (catalog : List CatalogResource)
    (h : urgentLevel a.level = true) :
    (recommendResources a keep catalog).any isEmergencyType = true := by
  unfold recommendResources
  by_cases hr :
      (sortResources resBefore (catalog.filter keep)).any isEmergencyType = true
  · simp [h, hr]
  · simp only [Bool.not_eq_true] at hr
    simp [h, hr, List.any_append, emergencyContactResources, isEmergencyType]

/-- Concrete instance of the emergency guarantee: with a critical assessment
and a filter discarding the whole catalog, an emergency contact is still
recommended. -/
theorem emergency_resource_guarantee_witness :
    (recommendResources ⟨UrgencyLevel.critical, 10, []⟩ (fun _ => false)
      []).any isEmergencyType = true :=
  emergency_resource_guarantee _ _ _ (by decide)

/-- Membership after deduplication implies membership in the input. -/
theorem mem_of_mem_dedupAux (l : List String) :
    ∀ seen s, s ∈ dedupAux seen l → s ∈ l := by
  induction l with
  | nil =>
    intro seen s h
    simp [dedupAux] at h
  | cons x xs ih =>
    intro seen s h
    by_cases hx : x ∈ seen
    · have h' : s ∈ dedupAux seen xs := by
        rw [dedupAux] at h
        simpa [hx] using h
      exact List.mem_cons_of_mem _ (ih seen s h')
    · have h' : s = x ∨ s ∈ dedupAux (x :: seen) xs := by
        rw [dedupAux] at h
        simpa [hx] using h
      rcases h' with h' | h'
      · exact h' ▸ List.mem_cons_self _ _
      · exact List.mem_cons_of_mem _ (ih (x :: seen) s h')

/-- Claim C5: when no retrieval result clears the minimum similarity floor,
the synthesizer returns the fixed fallback answer signaling insufficient
information, with an empty sources list and confidence low; and for every
input, every cited source comes from a retrieved result, so content is
never attributed to a source that was not retrieved. -/
theorem synthesize_floor_fallback (results : List RetrievalResult)
    (h : ∀ r ∈ results, r.similarity < SIMILARITY_FLOOR) :
    synthesize results = fallbackAnswer ∧
    (synthesize results).sources = [] ∧
    (synthesize results).confidence = Confidence.low ∧
    (∀ rs : List RetrievalResult, ∀ s ∈ (synthesize rs).sources,
      ∃ r ∈ rs, r.source = s) := by
  have hgen : ∀ rs : List RetrievalResult, ∀ s ∈ (synthesize rs).sources,
      ∃ r ∈ rs, r.source = s := by
    intro rs s hs
    unfold synthesize at hs
    by_cases he : (rs.filter (fun r => SIMILARITY_FLOOR ≤ r.similarity)).isEmpty = true
    · rw [if_pos he] at hs
      simp [fallbackAnswer] at hs
    · rw [if_neg he] at hs
      have h1 : s ∈ (rs.filter (fun r => SIMILARITY_FLOOR ≤ r.similarity)).map
          (fun r => r.source) :=
        mem_of_mem_dedupAux _ [] s hs
      rcases List.mem_map.mp h1 with ⟨r, hr, hsrc⟩
      exact ⟨r, (List.mem_filter.mp hr).1, hsrc⟩
  have hempty : (results.filter (fun r => SIMILARITY_FLOOR ≤ r.similarity)) = [] := by
    rw [List.filter_eq_nil_iff]
    intro r hr
    simpa using not_le.mpr (h r hr)
  have hfall : synthesize results = fallbackAnswer := by
    unfold synthesize
    simp [hempty]
  exact ⟨hfall, by rw [hfall]; rfl, by rw [hfall]; rfl, hgen⟩

/-- Concrete instance of the fallback claim: with no retrieval results at
all, the synthesizer returns exactly the fixed fallback answer. -/
theorem synthesize_floor_fallback_witness :
    synthesize [] = fallbackAnswer :=
  (synthesize_floor_fallback [] (by simp)).1

